import Mathlib

/-!
Shallow embedding of the retirement-planner repository
(`src/simulation.py` and `src/app.py`) and proofs about it.

Numeric modelling conventions:
* Python floats are modelled as exact rationals (`ℚ`);
* the numpy random draws are not modelled distributionally — the matrix
  `annual_returns` handed to the yearly loop is taken as an arbitrary
  function argument, so theorems quantify over all possible draws;
* the numpy 2-D array returned by `run_simulation` is a `List (List ℚ)`
  (rows = simulations, columns = years).
-/

namespace RetirementPlanner

/-- The parameter dict built in `app.py` and consumed by
`run_simulation` / `calculate_statistics` in `simulation.py`.
Ages are Python ints (`ℤ`); monetary amounts and rates are floats (`ℚ`).
The two standard deviations only parametrise the random draws, which are
abstracted away, but are kept for completeness of the record. -/
structure Params where
  current_age : ℤ
  retirement_age : ℤ
  life_expectancy : ℤ
  current_savings : ℚ
  annual_contribution : ℚ
  accumulation_return : ℚ
  accumulation_std : ℚ
  retirement_return : ℚ
  retirement_std : ℚ
  inflation_rate : ℚ
  annual_spending : ℚ
deriving Repr

/-- `total_years = life_expectancy - current_age` (simulation.py line 22),
as the natural number of year steps (nonnegative under the validation
invariant `life_expectancy > retirement_age > current_age`). -/
def totalYears (p : Params) : ℕ := (p.life_expectancy - p.current_age).toNat

/-- `accumulation_years = retirement_age - current_age` (simulation.py line 23). -/
def accumulationYears (p : Params) : ℕ := (p.retirement_age - p.current_age).toNat

/-- One iteration of the year loop of `run_simulation`
(simulation.py lines 33-46) for a single simulation:
`growth = prev * (1 + r)`; during accumulation the contribution is added,
during distribution the inflation-adjusted spending is subtracted; the
result is floored at zero by `np.maximum(results[:, year], 0)`. -/
def stepYear (p : Params) (r prev : ℚ) (year : ℕ) : ℚ :=
  let growth := prev * (1 + r)
  let value :=
    if year ≤ accumulationYears p then
      growth + p.annual_contribution
    else
      growth - p.annual_spending * (1 + p.inflation_rate) ^ (year - accumulationYears p - 1)
  max value 0

/-- The trajectory of one simulation row: year 0 holds `current_savings`
(simulation.py line 26), and year `y+1` is obtained from year `y` by
`stepYear` using the drawn return `rets y` (the code reads
`annual_returns[:, year - 1]` for column `year`). -/
def trajectory (p : Params) (rets : ℕ → ℚ) : ℕ → ℚ
  | 0 => p.current_savings
  | y + 1 => stepYear p (rets y) (trajectory p rets y) (y + 1)

/-- `run_simulation(params, num_simulations)` (simulation.py lines 4-48):
returns the `num_simulations × (total_years + 1)` grid of portfolio
values.  `draws s y` is the drawn annual return `annual_returns[s, y]`. -/
def run_simulation (p : Params) (numSims : ℕ) (draws : ℕ → ℕ → ℚ) : List (List ℚ) :=
  (List.range numSims).map fun s =>
    (List.range (totalYears p + 1)).map fun y => trajectory p (draws s) y

/-- Reading cell `[s, y]` of the result grid, with numpy's in-bounds
access modelled by `getD` defaults that are never hit in bounds. -/
def cell (results : List (List ℚ)) (s y : ℕ) : ℚ :=
  (results.getD s []).getD y 0

/-- `final_values = results[:, -1]` (simulation.py line 57): the last
entry of each row. -/
def final_values (results : List (List ℚ)) : List ℚ :=
  results.map fun row => row.getLastD 0

/-- `success_rate = np.mean(final_values > 0) * 100` (simulation.py
line 58): the fraction of rows whose final value is strictly positive,
times 100. -/
def success_rate (results : List (List ℚ)) : ℚ :=
  (((final_values results).countP fun v => decide (0 < v) : ℕ) : ℚ)
    / (results.length : ℚ) * 100

/-- Ascending sort used to model numpy's sorts on float arrays. -/
def sortAsc (xs : List ℚ) : List ℚ :=
  xs.mergeSort fun a b => decide (a ≤ b)

/-- Linear interpolation into a sorted array at the virtual position
`pos ∈ [0, length - 1]`: take `i = ⌊pos⌋` and interpolate between the
order statistics at `i` and `min (i+1) (length - 1)`. -/
def interpSorted (s : List ℚ) (pos : ℚ) : ℚ :=
  let i : ℕ := ⌊pos⌋.toNat
  s.getD i 0 + (pos - (i : ℚ)) * (s.getD (min (i + 1) (s.length - 1)) 0 - s.getD i 0)

/-- `np.percentile(xs, q)` with the default linear-interpolation method:
sort ascending and interpolate at virtual position `q / 100 * (n - 1)`. -/
def np_percentile (xs : List ℚ) (q : ℚ) : ℚ :=
  interpSorted (sortAsc xs) (q * (((sortAsc xs).length : ℚ) - 1) / 100)

/-- Column `y` of the result grid (`results[:, y]`). -/
def column (results : List (List ℚ)) (y : ℕ) : List ℚ :=
  results.map fun row => row.getD y 0

/-- One entry of the `percentiles` dict (simulation.py lines 61-67):
`np.percentile(results, q, axis=0)`, i.e. the per-year-column
cross-sectional percentile, a series of length `total_years + 1`. -/
def percentile_series (results : List (List ℚ)) (q : ℚ) : List ℚ :=
  (List.range (results.headD []).length).map fun y => np_percentile (column results y) q

/-- `sorted_indices = np.argsort(final_values)` (simulation.py line 70):
the simulation indices sorted ascending by final-year value. -/
def sorted_indices (results : List (List ℚ)) : List ℕ :=
  (List.range results.length).mergeSort fun i j =>
    decide ((final_values results).getD i 0 ≤ (final_values results).getD j 0)

/-- The selection index `int(n * pct / 100)` (simulation.py line 74);
with `n` and `pct` nonnegative integers Python's truncation is the floor,
i.e. natural-number division. -/
def repIndex (n pct : ℕ) : ℕ := n * pct / 100

/-- One entry of `representative_runs` (simulation.py lines 73-75):
the full row of the grid whose index sits at sorted position
`repIndex n pct` of the final-value-ascending order. -/
def representative_run (results : List (List ℚ)) (pct : ℕ) : List ℚ :=
  results.getD ((sorted_indices results).getD (repIndex results.length pct) 0) []

end RetirementPlanner

namespace RetirementApp

open RetirementPlanner

/-!  Embedding of the application shell `src/app.py`: free-text parsing
(`parse_int`, lines 104-108), parameter assembly (lines 126-138) and the
validation gate of the `chart_area` block (lines 120-124). -/

/-- Python's `str.strip()` on the characters of a string: drop
whitespace from both ends. -/
def pyStrip (l : List Char) : List Char :=
  ((l.dropWhile Char.isWhitespace).reverse.dropWhile Char.isWhitespace).reverse

/-- `raw.replace("$", "").replace(",", "")`: remove every dollar sign
and comma. -/
def stripDollarComma (l : List Char) : List Char :=
  (l.filter fun c => decide (c ≠ '$')).filter fun c => decide (c ≠ ',')

/-- The digit string accepted by Python `int()` after the optional sign:
one or more decimal digits (the underscore-grouping extension of Python 3
is not used by any input this app handles and is not modelled). -/
def parseDigits (l : List Char) : Option ℕ :=
  if l = [] then none
  else if l.all Char.isDigit then
    some (l.foldl (fun acc c => 10 * acc + (c.toNat - 48)) 0)
  else none

/-- Python `int(s)` on an already-stripped string: an optional single
`+`/`-` sign followed by digits; anything else raises `ValueError`,
modelled as `none`. -/
def pyInt : List Char → Option ℤ
  | '+' :: rest => (parseDigits rest).map fun n => (n : ℤ)
  | '-' :: rest => (parseDigits rest).map fun n => -(n : ℤ)
  | l => (parseDigits l).map fun n => (n : ℤ)

/-- `parse_int(raw, default)` (app.py lines 104-108):
`int(raw.replace("$", "").replace(",", "").strip())`, falling back to
`default` when the conversion raises `ValueError`. -/
def parse_int (raw : String) (default : ℤ) : ℤ :=
  match pyInt (pyStrip (stripDollarComma raw.toList)) with
  | some v => v
  | none => default

/-- The raw widget state of the options form (app.py lines 75-101):
six free-text fields, five sliders (in percent units) and the
simulation-count choice. -/
structure RawInputs where
  age_raw : String
  retire_raw : String
  until_raw : String
  savings_raw : String
  contribution_raw : String
  spending_raw : String
  accumulation_return : ℚ
  accumulation_std : ℚ
  retirement_return : ℚ
  retirement_std : ℚ
  inflation_rate : ℚ
  num_simulations : ℕ
deriving Repr

/-- The default widget values of app.py lines 78-99. -/
def defaultInputs : RawInputs where
  age_raw := "30"
  retire_raw := "50"
  until_raw := "90"
  savings_raw := "$2,400,000"
  contribution_raw := "$90,000"
  spending_raw := "$400,000"
  accumulation_return := 9
  accumulation_std := 15
  retirement_return := 6
  retirement_std := 3
  inflation_rate := 3
  num_simulations := 1000

/-- The `params` dict assembled at app.py lines 126-138: parsed text
fields with their named defaults, and sliders divided by 100. -/
def buildParams (inp : RawInputs) : Params where
  current_age := parse_int inp.age_raw 30
  retirement_age := parse_int inp.retire_raw 50
  life_expectancy := parse_int inp.until_raw 90
  current_savings := (parse_int inp.savings_raw 2400000 : ℤ)
  annual_contribution := (parse_int inp.contribution_raw 90000 : ℤ)
  annual_spending := (parse_int inp.spending_raw 400000 : ℤ)
  accumulation_return := inp.accumulation_return / 100
  accumulation_std := inp.accumulation_std / 100
  retirement_return := inp.retirement_return / 100
  retirement_std := inp.retirement_std / 100
  inflation_rate := inp.inflation_rate / 100

/-- What the `chart_area` block renders: either a single inline error
message and nothing else (no chart, no metrics, no engine call — the
constructor carries no simulation data), or the results view computed
from the validated parameters. -/
inductive ShellView where
  | errorMsg (msg : String)
  | resultsView (p : Params) (numSims : ℕ)
deriving Repr

/-- The validation gate of app.py lines 120-141: the two ordering checks
run on the parsed inputs before the engine is invoked; only when both
pass is `run_simulation` called. -/
def chartView (inp : RawInputs) : ShellView :=
  let current_age := parse_int inp.age_raw 30
  let retirement_age := parse_int inp.retire_raw 50
  let life_expectancy := parse_int inp.until_raw 90
  if retirement_age ≤ current_age then
    .errorMsg "Retirement age must be greater than current age."
  else if life_expectancy ≤ retirement_age then
    .errorMsg "Life expectancy must be greater than retirement age."
  else
    .resultsView (buildParams inp) inp.num_simulations

end RetirementApp

namespace RetirementPlanner

/-! ## Basic facts about the result grid -/

theorem length_run_simulation (p : Params) (numSims : ℕ) (draws : ℕ → ℕ → ℚ) :
    (run_simulation p numSims draws).length = numSims := by
  simp [run_simulation]

theorem row_length_run_simulation (p : Params) (numSims : ℕ) (draws : ℕ → ℕ → ℚ)
    (row : List ℚ) (hrow : row ∈ run_simulation p numSims draws) :
    row.length = totalYears p + 1 := by
  rcases List.mem_map.mp hrow with ⟨s, _, rfl⟩
  simp

theorem trajectory_succ (p : Params) (rets : ℕ → ℚ) (y : ℕ) :
    trajectory p rets (y + 1) = stepYear p (rets y) (trajectory p rets y) (y + 1) := rfl

theorem getD_map_range {α : Type} (f : ℕ → α) (n i : ℕ) (d : α) (h : i < n) :
    ((List.range n).map f).getD i d = f i := by
  rw [List.getD_eq_getElem _ _ (by simpa using h), List.getElem_map, List.getElem_range]

theorem getD_map_range_of_ge {α : Type} (f : ℕ → α) (n i : ℕ) (d : α) (h : n ≤ i) :
    ((List.range n).map f).getD i d = d :=
  List.getD_eq_default _ _ (by simpa using h)

theorem cell_run_simulation (p : Params) (numSims : ℕ) (draws : ℕ → ℕ → ℚ)
    (s y : ℕ) (hs : s < numSims) (hy : y < totalYears p + 1) :
    cell (run_simulation p numSims draws) s y = trajectory p (draws s) y := by
  unfold cell run_simulation
  rw [getD_map_range _ _ _ _ hs, getD_map_range _ _ _ _ hy]

theorem stepYear_nonneg (p : Params) (r prev : ℚ) (year : ℕ) :
    0 ≤ stepYear p r prev year :=
  le_max_right _ 0

theorem trajectory_nonneg_of_one_le (p : Params) (rets : ℕ → ℚ) (y : ℕ) (hy : 1 ≤ y) :
    0 ≤ trajectory p rets y := by
  cases y with
  | zero => omega
  | succ n => exact stepYear_nonneg p (rets n) (trajectory p rets n) (n + 1)

theorem cell_nonneg_of_one_le (p : Params) (numSims : ℕ) (draws : ℕ → ℕ → ℚ)
    (s y : ℕ) (hy : 1 ≤ y) : 0 ≤ cell (run_simulation p numSims draws) s y := by
  rcases lt_or_ge s numSims with hs | hs
  · rcases lt_or_ge y (totalYears p + 1) with hyy | hyy
    · rw [cell_run_simulation p numSims draws s y hs hyy]
      exact trajectory_nonneg_of_one_le p (draws s) y hy
    · unfold cell run_simulation
      rw [getD_map_range _ _ _ _ hs, getD_map_range_of_ge _ _ _ _ hyy]
  · unfold cell run_simulation
    rw [getD_map_range_of_ge _ _ _ _ hs]
    simp

/-! ## C1: shape, initialization and yearly recurrence of `run_simulation` -/

/-- C1: for every validated parameter set and every sequence of drawn
annual returns, `run_simulation` returns a grid of `numSims` rows and
`totalYears + 1` columns; every row's year-0 value is `current_savings`;
and for each year `1 ≤ y ≤ totalYears` the value is the prior value times
`(1 + that year's drawn return)`, plus `annual_contribution` when
`y ≤ accumulationYears`, minus
`annual_spending * (1 + inflation_rate) ^ (y - accumulationYears - 1)`
when `y > accumulationYears`, the result floored at 0. -/
theorem C1_run_simulation_grid (p : Params) (numSims : ℕ) (draws : ℕ → ℕ → ℚ)
    (hra : p.current_age < p.retirement_age)
    (hle : p.retirement_age < p.life_expectancy) :
    (run_simulation p numSims draws).length = numSims ∧
    (∀ row ∈ run_simulation p numSims draws, row.length = totalYears p + 1) ∧
    (∀ s < numSims, cell (run_simulation p numSims draws) s 0 = p.current_savings) ∧
    (∀ s < numSims, ∀ y, 1 ≤ y → y ≤ totalYears p →
      cell (run_simulation p numSims draws) s y =
        max
          (if y ≤ accumulationYears p then
            cell (run_simulation p numSims draws) s (y - 1) * (1 + draws s (y - 1))
              + p.annual_contribution
          else
            cell (run_simulation p numSims draws) s (y - 1) * (1 + draws s (y - 1))
              - p.annual_spending * (1 + p.inflation_rate) ^ (y - accumulationYears p - 1))
          0) := by
  refine ⟨length_run_simulation p numSims draws,
          row_length_run_simulation p numSims draws, ?_, ?_⟩
  · intro s hs
    rw [cell_run_simulation p numSims draws s 0 hs (by omega)]
    rfl
  · intro s hs y hy1 hyT
    obtain ⟨y₀, rfl⟩ : ∃ y₀, y = y₀ + 1 := ⟨y - 1, by omega⟩
    rw [cell_run_simulation p numSims draws s (y₀ + 1) hs (by omega),
        cell_run_simulation p numSims draws s (y₀ + 1 - 1) hs (by omega)]
    simp only [Nat.add_sub_cancel]
    rw [trajectory_succ]
    by_cases hacc : y₀ + 1 ≤ accumulationYears p <;> simp [stepYear, hacc]

/-- Witness for C1 at concrete inputs. -/
theorem C1_run_simulation_grid_witness :
    let p : Params :=
      { current_age := 30, retirement_age := 50, life_expectancy := 90,
        current_savings := 2400000, annual_contribution := 90000,
        accumulation_return := 9/100, accumulation_std := 15/100,
        retirement_return := 6/100, retirement_std := 3/100,
        inflation_rate := 3/100, annual_spending := 400000 }
    (run_simulation p 2 fun _ _ => 0).length = 2 ∧
    (∀ row ∈ run_simulation p 2 fun _ _ => 0, row.length = totalYears p + 1) ∧
    (∀ s < 2, cell (run_simulation p 2 fun _ _ => 0) s 0 = p.current_savings) ∧
    (∀ s < 2, ∀ y, 1 ≤ y → y ≤ totalYears p →
      cell (run_simulation p 2 fun _ _ => 0) s y =
        max
          (if y ≤ accumulationYears p then
            cell (run_simulation p 2 fun _ _ => 0) s (y - 1) * (1 + (fun _ _ => (0:ℚ)) s (y - 1))
              + p.annual_contribution
          else
            cell (run_simulation p 2 fun _ _ => 0) s (y - 1) * (1 + (fun _ _ => (0:ℚ)) s (y - 1))
              - p.annual_spending * (1 + p.inflation_rate) ^ (y - accumulationYears p - 1))
          0) :=
  C1_run_simulation_grid _ 2 (fun _ _ => 0) (by decide) (by decide)

/-! ## C3: nonnegativity of every cell -/

/-- C3: for all parameters with nonnegative `current_savings` (the
data-model constraint) and all random draws, every cell of the
trajectory ensemble is `≥ 0`. -/
theorem C3_cells_nonneg (p : Params) (hcs : 0 ≤ p.current_savings)
    (numSims : ℕ) (draws : ℕ → ℕ → ℚ) :
    ∀ row ∈ run_simulation p numSims draws, ∀ v ∈ row, 0 ≤ v := by
  intro row hrow v hv
  rcases List.mem_map.mp hrow with ⟨s, _, rfl⟩
  rcases List.mem_map.mp hv with ⟨y, _, rfl⟩
  cases y with
  | zero => exact hcs
  | succ n => exact stepYear_nonneg p _ _ _

/-- Witness for C3 at concrete inputs. -/
theorem C3_cells_nonneg_witness :
    let p : Params :=
      { current_age := 30, retirement_age := 50, life_expectancy := 90,
        current_savings := 2400000, annual_contribution := 90000,
        accumulation_return := 9/100, accumulation_std := 15/100,
        retirement_return := 6/100, retirement_std := 3/100,
        inflation_rate := 3/100, annual_spending := 400000 }
    ∀ row ∈ run_simulation p 3 fun s y => (s : ℚ) - (y : ℚ), ∀ v ∈ row, 0 ≤ v :=
  C3_cells_nonneg _ (by norm_num) 3 _

/-! ## C10: the representative-run selection index is always in bounds -/

theorem repIndex_lt (n pct : ℕ) (hn : 1 ≤ n)
    (hpct : pct ∈ ([10, 25, 50, 75, 90] : List ℕ)) :
    repIndex n pct < n := by
  unfold repIndex
  fin_cases hpct <;> omega

/-- C10: for every `numSims ≥ 1` and every percentile rank in
`{10, 25, 50, 75, 90}`, `repIndex numSims pct = ⌊numSims * pct / 100⌋`
satisfies `0 ≤ index < numSims`, so the lookup into the sorted order
never goes out of bounds. -/
theorem C10_repIndex_in_bounds (n pct : ℕ) (hn : 1 ≤ n)
    (hpct : pct ∈ ([10, 25, 50, 75, 90] : List ℕ)) :
    repIndex n pct < n :=
  repIndex_lt n pct hn hpct

/-- Witness for C10 at concrete inputs. -/
theorem C10_repIndex_in_bounds_witness : repIndex 1000 90 < 1000 :=
  C10_repIndex_in_bounds 1000 90 (by norm_num) (by norm_num)

/-! ## C4: depletion stickiness

The claim as frozen fails: during the accumulation phase the loop
computes `growth + annual_contribution`, so a trajectory sitting at
exactly 0 is revived by the contribution in the next year.  A concrete
in-range counterexample: `current_savings = 0` (the data model only
requires the amount to be nonnegative) makes year 0 exactly 0 while
year 1 equals the annual contribution. -/

/-- Parameters exhibiting the C4 failure: the UI defaults except that
current savings is 0. -/
def depletedStartParams : Params where
  current_age := 30
  retirement_age := 50
  life_expectancy := 90
  current_savings := 0
  annual_contribution := 90000
  accumulation_return := 9/100
  accumulation_std := 15/100
  retirement_return := 6/100
  retirement_std := 3/100
  inflation_rate := 3/100
  annual_spending := 400000

/-- C4 counterexample: it is not true that for every parameter set,
every draw sequence, every simulation and every pair of years `y ≤ y'`,
a zero value at year `y` forces a zero value at year `y'`.  With
`depletedStartParams` and all drawn returns 0, simulation 0 has value 0
at year 0 but value 90000 at year 1. -/
theorem C4_counterexample :
    ¬ (∀ (p : Params) (numSims : ℕ) (draws : ℕ → ℕ → ℚ) (s y y' : ℕ),
        y ≤ y' →
        cell (run_simulation p numSims draws) s y = 0 →
        cell (run_simulation p numSims draws) s y' = 0) := by
  intro h
  have h0 : cell (run_simulation depletedStartParams 1 fun _ _ => 0) 0 0 = 0 := by
    rw [cell_run_simulation depletedStartParams 1 _ 0 0 (by norm_num) (by norm_num)]
    rfl
  have h1 := h depletedStartParams 1 (fun _ _ => 0) 0 0 1 (by omega) h0
  rw [cell_run_simulation depletedStartParams 1 _ 0 1 (by norm_num) (by decide)] at h1
  rw [trajectory_succ] at h1
  simp [stepYear, trajectory, depletedStartParams, accumulationYears] at h1

/-- C4 amended: depletion is sticky from the retirement boundary on.
If a simulation's value is exactly 0 at a year `y ≥ accumulationYears`
(so every later year is in the distribution phase) then, provided
`annual_spending ≥ 0` and `inflation_rate ≥ 0` (the data-model ranges),
the value stays exactly 0 at every subsequent year.  During the
accumulation phase the annual contribution revives a depleted
portfolio, so the boundary hypothesis cannot be dropped. -/
theorem C4_amended_sticky_zero (p : Params) (numSims : ℕ) (draws : ℕ → ℕ → ℚ)
    (hsp : 0 ≤ p.annual_spending) (hinf : 0 ≤ p.inflation_rate)
    (s y y' : ℕ) (hs : s < numSims) (hacc : accumulationYears p ≤ y) (hyy : y ≤ y')
    (hy' : y' < totalYears p + 1)
    (h0 : cell (run_simulation p numSims draws) s y = 0) :
    cell (run_simulation p numSims draws) s y' = 0 := by
  rw [cell_run_simulation p numSims draws s y hs (by omega)] at h0
  rw [cell_run_simulation p numSims draws s y' hs hy']
  obtain ⟨k, rfl⟩ := Nat.le.dest hyy
  clear hyy hy'
  induction k with
  | zero => exact h0
  | succ n ih =>
    rw [← Nat.add_assoc, trajectory_succ, ih]
    unfold stepYear
    have hcond : ¬ (y + n + 1 ≤ accumulationYears p) := by omega
    have hpow : 0 ≤ p.annual_spending * (1 + p.inflation_rate) ^ (y + n + 1 - accumulationYears p - 1) :=
      mul_nonneg hsp (pow_nonneg (by linarith) _)
    simp only [hcond, if_false, zero_mul, zero_sub]
    exact max_eq_right (by linarith)

/-- Degenerate small parameter set used to instantiate hypotheses:
no savings and no contribution, so a trajectory sits at 0 from the
start and crosses into retirement still at 0. -/
def tinyParams : Params where
  current_age := 18
  retirement_age := 19
  life_expectancy := 21
  current_savings := 0
  annual_contribution := 0
  accumulation_return := 9/100
  accumulation_std := 15/100
  retirement_return := 6/100
  retirement_std := 3/100
  inflation_rate := 3/100
  annual_spending := 5

/-- Witness for the amended C4 at concrete inputs. -/
theorem C4_amended_sticky_zero_witness :
    cell (run_simulation tinyParams 1 fun _ _ => 0) 0 3 = 0 := by
  refine C4_amended_sticky_zero tinyParams 1 (fun _ _ => 0)
    (by norm_num [tinyParams]) (by norm_num [tinyParams])
    0 1 3 (by norm_num) (by decide) (by omega) (by decide) ?_
  rw [cell_run_simulation tinyParams 1 _ 0 1 (by norm_num) (by decide)]
  rw [show (1:ℕ) = 0 + 1 from rfl, trajectory_succ]
  norm_num [stepYear, trajectory, tinyParams, accumulationYears]

/-! ## Sorting facts shared by C2 and C6 -/

theorem sortAsc_perm (xs : List ℚ) : List.Perm (sortAsc xs) xs :=
  List.mergeSort_perm xs _

theorem getD_map {α β : Type} (f : α → β) (l : List α) (k : ℕ) (d : α) (d' : β)
    (h : k < l.length) : (l.map f).getD k d' = f (l.getD k d) := by
  rw [List.getD_eq_getElem _ _ (by simpa using h), List.getElem_map,
      List.getD_eq_getElem _ _ h]

theorem sortAsc_sorted (xs : List ℚ) : List.Sorted (· ≤ ·) (sortAsc xs) := by
  have h := @List.sorted_mergeSort ℚ (fun a b : ℚ => decide (a ≤ b))
    (fun a b c hab hbc => by
      simp only [decide_eq_true_eq] at *
      exact le_trans hab hbc)
    (fun a b => by
      simp only [Bool.or_eq_true, decide_eq_true_eq]
      exact le_total a b)
    xs
  exact h.imp fun hab => of_decide_eq_true hab

theorem sortAsc_length (xs : List ℚ) : (sortAsc xs).length = xs.length :=
  (sortAsc_perm xs).length_eq

theorem sorted_getD_mono {l : List ℚ} (hl : List.Sorted (· ≤ ·) l) {i j : ℕ}
    (hij : i ≤ j) (hj : j < l.length) : l.getD i 0 ≤ l.getD j 0 := by
  rcases eq_or_lt_of_le hij with rfl | hlt
  · exact le_refl _
  · rw [List.getD_eq_getElem _ _ (lt_trans hlt hj), List.getD_eq_getElem _ _ hj]
    exact hl.rel_get_of_lt (a := ⟨i, lt_trans hlt hj⟩) (b := ⟨j, hj⟩) hlt

theorem map_getD_range {α : Type} (l : List α) (d : α) :
    (List.range l.length).map (fun i => l.getD i d) = l := by
  apply List.ext_getElem
  · simp
  · intro i h1 h2
    rw [List.getElem_map, List.getElem_range, List.getD_eq_getElem _ _ h2]

theorem length_sorted_indices (results : List (List ℚ)) :
    (sorted_indices results).length = results.length := by
  unfold sorted_indices
  rw [List.length_mergeSort, List.length_range]

theorem mem_sorted_indices_lt (results : List (List ℚ)) (i : ℕ)
    (hi : i ∈ sorted_indices results) : i < results.length := by
  unfold sorted_indices at hi
  have := (List.mergeSort_perm (List.range results.length) _).mem_iff.mp hi
  simpa using this

theorem length_final_values (results : List (List ℚ)) :
    (final_values results).length = results.length := by
  unfold final_values
  exact List.length_map _ _

/-- The key fact behind the representative-run selection: reading the
final values along `sorted_indices` yields exactly the ascending sort
of the final values (so position `k` of the sorted index list points at
the simulation holding the `k`-th smallest final value). -/
theorem map_final_sorted_indices (results : List (List ℚ)) :
    (sorted_indices results).map (fun i => (final_values results).getD i 0) =
      sortAsc (final_values results) := by
  apply List.eq_of_perm_of_sorted (r := (· ≤ · : ℚ → ℚ → Prop))
  · have h1 : List.Perm
        ((sorted_indices results).map (fun i => (final_values results).getD i 0))
        ((List.range results.length).map (fun i => (final_values results).getD i 0)) :=
      (List.mergeSort_perm (List.range results.length) _).map _
    have h2 : (List.range results.length).map (fun i => (final_values results).getD i 0)
        = final_values results := by
      rw [← length_final_values results]
      exact map_getD_range _ 0
    rw [h2] at h1
    exact h1.trans (sortAsc_perm (final_values results)).symm
  · have h := @List.sorted_mergeSort ℕ
      (fun i j : ℕ =>
        decide ((final_values results).getD i 0 ≤ (final_values results).getD j 0))
      (fun a b c hab hbc => by
        simp only [decide_eq_true_eq] at *
        exact le_trans hab hbc)
      (fun a b => by
        simp only [Bool.or_eq_true, decide_eq_true_eq]
        exact le_total _ _)
      (List.range results.length)
    exact List.Pairwise.map _ (fun a b hab => of_decide_eq_true hab) h
  · exact sortAsc_sorted (final_values results)

/-! ## C2: the representative-run selection rule -/

/-- C2: for every ensemble with at least one row and every percentile
rank in `{10, 25, 50, 75, 90}`, the representative run is an actual row
of the ensemble (an entire trajectory, not a recomputed curve), namely
the row whose final-year value is the `repIndex n pct`-th smallest
final value — the simulation at zero-based position
`⌊n * pct / 100⌋` of the final-value-ascending order; and with
`n = 1000` the p50 selection position is exactly 500. -/
theorem C2_representative_run_selection (results : List (List ℚ))
    (hn : 1 ≤ results.length) (pct : ℕ)
    (hpct : pct ∈ ([10, 25, 50, 75, 90] : List ℕ)) :
    representative_run results pct ∈ results ∧
    (representative_run results pct).getLastD 0 =
      (sortAsc (final_values results)).getD (repIndex results.length pct) 0 ∧
    repIndex 1000 50 = 500 := by
  set n := results.length with hnlen
  set k := repIndex n pct with hk
  have hkn : k < n := repIndex_lt n pct hn hpct
  have hklen : k < (sorted_indices results).length := by
    rw [length_sorted_indices]
    exact hkn
  set idx := (sorted_indices results).getD k 0 with hidx
  have hmem : idx ∈ sorted_indices results := by
    rw [hidx, List.getD_eq_getElem _ _ hklen]
    exact List.getElem_mem hklen
  have hidxn : idx < n := mem_sorted_indices_lt results idx hmem
  have hrep : representative_run results pct = results.getD idx [] := rfl
  refine ⟨?_, ?_, by decide⟩
  · rw [hrep, List.getD_eq_getElem _ _ hidxn]
    exact List.getElem_mem hidxn
  · have hfin : (final_values results).getD idx 0 = (results.getD idx []).getLastD 0 := by
      unfold final_values
      rw [getD_map _ _ _ [] _ hidxn]
    rw [hrep, ← hfin, ← map_final_sorted_indices results, getD_map _ _ _ 0 _ hklen]

/-- Witness for C2 at a concrete three-run ensemble. -/
theorem C2_representative_run_selection_witness :
    representative_run [[(5:ℚ)], [1], [3]] 50 ∈ [[(5:ℚ)], [1], [3]] ∧
    (representative_run [[(5:ℚ)], [1], [3]] 50).getLastD 0 =
      (sortAsc (final_values [[(5:ℚ)], [1], [3]])).getD
        (repIndex ([[(5:ℚ)], [1], [3]] : List (List ℚ)).length 50) 0 ∧
    repIndex 1000 50 = 500 :=
  C2_representative_run_selection [[(5:ℚ)], [1], [3]] (by norm_num) 50 (by norm_num)

/-! ## C5: exact form and bounds of the success rate -/

/-- C5: for every ensemble with at least one simulation, `success_rate`
equals exactly `100 × (count of final-year values strictly greater
than 0) / numSims` and lies within `[0, 100]`.  The counting predicate
is strict, so a simulation ending at exactly 0 counts as a failure. -/
theorem C5_success_rate_exact (results : List (List ℚ)) (hn : 1 ≤ results.length) :
    success_rate results =
      100 * (((final_values results).countP fun v => decide (0 < v) : ℕ) : ℚ)
        / (results.length : ℚ) ∧
    0 ≤ success_rate results ∧ success_rate results ≤ 100 := by
  have hcn : (final_values results).countP (fun v => decide (0 < v)) ≤ results.length := by
    have h := List.countP_le_length (fun v => decide (0 < v))
      (l := final_values results)
    simpa [final_values] using h
  have hnpos : (0:ℚ) < (results.length : ℚ) := by exact_mod_cast hn
  have hcq : (((final_values results).countP fun v => decide (0 < v) : ℕ) : ℚ)
      ≤ (results.length : ℚ) := by exact_mod_cast hcn
  unfold success_rate
  refine ⟨by ring, by positivity, ?_⟩
  rw [div_mul_eq_mul_div, div_le_iff hnpos]
  nlinarith

/-- Witness for C5 at a concrete two-run ensemble (one success, one
run ending at exactly 0, which counts as a failure): the rate is 50. -/
theorem C5_success_rate_exact_witness :
    success_rate [[(1:ℚ)], [0]] =
      100 * (((final_values [[(1:ℚ)], [0]]).countP fun v => decide (0 < v) : ℕ) : ℚ)
        / (([[(1:ℚ)], [0]] : List (List ℚ)).length : ℚ) ∧
    0 ≤ success_rate [[(1:ℚ)], [0]] ∧ success_rate [[(1:ℚ)], [0]] ≤ 100 :=
  C5_success_rate_exact [[(1:ℚ)], [0]] (by norm_num)

/-! ## C6: per-column ordering of the five percentile series -/

theorem floor_toNat_cast (pos : ℚ) (h0 : 0 ≤ pos) :
    ((⌊pos⌋.toNat : ℕ) : ℚ) = ((⌊pos⌋ : ℤ) : ℚ) := by
  exact_mod_cast congrArg (fun z : ℤ => (z : ℚ))
    (Int.toNat_of_nonneg (Int.floor_nonneg.mpr h0))

theorem interpSorted_bounds (s : List ℚ) (hs : List.Sorted (· ≤ ·) s)
    (hlen : 1 ≤ s.length) (pos : ℚ) (h0 : 0 ≤ pos)
    (hm : pos ≤ ((s.length - 1 : ℕ) : ℚ)) :
    s.getD ⌊pos⌋.toNat 0 ≤ interpSorted s pos ∧
    interpSorted s pos ≤ s.getD (min (⌊pos⌋.toNat + 1) (s.length - 1)) 0 := by
  simp only [interpSorted]
  set m := s.length - 1 with hmdef
  set i := ⌊pos⌋.toNat with hidef
  have hcast : ((i : ℕ) : ℚ) = ((⌊pos⌋ : ℤ) : ℚ) := floor_toNat_cast pos h0
  have hile : (i : ℚ) ≤ pos := by rw [hcast]; exact Int.floor_le pos
  have hlt1 : pos < (i : ℚ) + 1 := by rw [hcast]; exact_mod_cast Int.lt_floor_add_one pos
  have him : i ≤ m := by
    refine Int.toNat_le.mpr ?_
    have h1 := Int.floor_le_floor hm
    rwa [Int.floor_natCast] at h1
  have hmin_lt : min (i + 1) m < s.length := by omega
  have hlohi : s.getD i 0 ≤ s.getD (min (i + 1) m) 0 :=
    sorted_getD_mono hs (by omega) hmin_lt
  constructor
  · nlinarith [mul_nonneg (by linarith : (0:ℚ) ≤ pos - (i : ℚ))
      (by linarith : (0:ℚ) ≤ s.getD (min (i + 1) m) 0 - s.getD i 0)]
  · nlinarith [mul_nonneg (by linarith : (0:ℚ) ≤ (i : ℚ) + 1 - pos)
      (by linarith : (0:ℚ) ≤ s.getD (min (i + 1) m) 0 - s.getD i 0)]

theorem interpSorted_mono (s : List ℚ) (hs : List.Sorted (· ≤ ·) s)
    (hlen : 1 ≤ s.length) (p₁ p₂ : ℚ) (h0 : 0 ≤ p₁) (h12 : p₁ ≤ p₂)
    (hm : p₂ ≤ ((s.length - 1 : ℕ) : ℚ)) :
    interpSorted s p₁ ≤ interpSorted s p₂ := by
  have h0₂ : 0 ≤ p₂ := le_trans h0 h12
  have hi12 : ⌊p₁⌋.toNat ≤ ⌊p₂⌋.toNat := Int.toNat_le_toNat (Int.floor_le_floor h12)
  rcases eq_or_lt_of_le hi12 with heq | hlt
  · have hb₁ := interpSorted_bounds s hs hlen p₁ h0 (le_trans h12 hm)
    have him : ⌊p₂⌋.toNat ≤ s.length - 1 := by
      refine Int.toNat_le.mpr ?_
      have h1 := Int.floor_le_floor hm
      rwa [Int.floor_natCast] at h1
    have hmin_lt : min (⌊p₁⌋.toNat + 1) (s.length - 1) < s.length := by omega
    have hlohi : s.getD ⌊p₁⌋.toNat 0 ≤ s.getD (min (⌊p₁⌋.toNat + 1) (s.length - 1)) 0 :=
      sorted_getD_mono hs (by omega) hmin_lt
    simp only [interpSorted]
    rw [← heq]
    nlinarith [mul_nonneg (by linarith : (0:ℚ) ≤ p₂ - p₁)
      (by linarith : (0:ℚ) ≤ s.getD (min (⌊p₁⌋.toNat + 1) (s.length - 1)) 0 - s.getD ⌊p₁⌋.toNat 0)]
  · have him₂ : ⌊p₂⌋.toNat ≤ s.length - 1 := by
      refine Int.toNat_le.mpr ?_
      have h1 := Int.floor_le_floor hm
      rwa [Int.floor_natCast] at h1
    calc interpSorted s p₁
        ≤ s.getD (min (⌊p₁⌋.toNat + 1) (s.length - 1)) 0 :=
          (interpSorted_bounds s hs hlen p₁ h0 (le_trans h12 hm)).2
      _ ≤ s.getD ⌊p₂⌋.toNat 0 := sorted_getD_mono hs (by omega) (by omega)
      _ ≤ interpSorted s p₂ := (interpSorted_bounds s hs hlen p₂ h0₂ hm).1

theorem np_percentile_mono (xs : List ℚ) (hne : 1 ≤ xs.length)
    (q₁ q₂ : ℚ) (h0 : 0 ≤ q₁) (h12 : q₁ ≤ q₂) (h100 : q₂ ≤ 100) :
    np_percentile xs q₁ ≤ np_percentile xs q₂ := by
  unfold np_percentile
  have hslen : 1 ≤ (sortAsc xs).length := by rw [sortAsc_length]; exact hne
  have hcast : (((sortAsc xs).length : ℚ) - 1) = (((sortAsc xs).length - 1 : ℕ) : ℚ) :=
    (Nat.cast_sub hslen).symm
  have hc0 : (0:ℚ) ≤ ((sortAsc xs).length : ℚ) - 1 := by
    have : (1:ℚ) ≤ ((sortAsc xs).length : ℚ) := by exact_mod_cast hslen
    linarith
  refine interpSorted_mono (sortAsc xs) (sortAsc_sorted xs) hslen _ _ ?_ ?_ ?_
  · positivity
  · have := mul_le_mul_of_nonneg_right h12 hc0
    linarith
  · rw [← hcast]
    have := mul_le_mul_of_nonneg_right h100 hc0
    linarith

theorem headD_eq_getD {α : Type} (l : List α) (d : α) : l.headD d = l.getD 0 d := by
  cases l <;> rfl

theorem head_length_run_simulation (p : Params) (numSims : ℕ) (draws : ℕ → ℕ → ℚ)
    (hn : 1 ≤ numSims) :
    ((run_simulation p numSims draws).headD []).length = totalYears p + 1 := by
  rw [headD_eq_getD]
  unfold run_simulation
  rw [getD_map_range _ _ _ _ (by omega)]
  simp

theorem length_percentile_series (results : List (List ℚ)) (q : ℚ) :
    (percentile_series results q).length = (results.headD []).length := by
  unfold percentile_series
  rw [List.length_map, List.length_range]

theorem percentile_series_getD (results : List (List ℚ)) (q : ℚ) (y : ℕ)
    (hy : y < (results.headD []).length) :
    (percentile_series results q).getD y 0 = np_percentile (column results y) q := by
  unfold percentile_series
  rw [getD_map_range _ _ _ _ hy]

theorem length_column (results : List (List ℚ)) (y : ℕ) :
    (column results y).length = results.length :=
  List.length_map _ _

/-- C6: for every ensemble produced by `run_simulation` with at least
one simulation, each of the five cross-sectional percentile series has
length `totalYears + 1`, and at every year column
`p10 ≤ p25 ≤ p50 ≤ p75 ≤ p90` (equality permitted). -/
theorem C6_percentile_series_ordered (p : Params) (numSims : ℕ) (draws : ℕ → ℕ → ℚ)
    (hn : 1 ≤ numSims) :
    ((percentile_series (run_simulation p numSims draws) 10).length = totalYears p + 1 ∧
     (percentile_series (run_simulation p numSims draws) 25).length = totalYears p + 1 ∧
     (percentile_series (run_simulation p numSims draws) 50).length = totalYears p + 1 ∧
     (percentile_series (run_simulation p numSims draws) 75).length = totalYears p + 1 ∧
     (percentile_series (run_simulation p numSims draws) 90).length = totalYears p + 1) ∧
    (∀ y < totalYears p + 1,
      (percentile_series (run_simulation p numSims draws) 10).getD y 0 ≤
        (percentile_series (run_simulation p numSims draws) 25).getD y 0 ∧
      (percentile_series (run_simulation p numSims draws) 25).getD y 0 ≤
        (percentile_series (run_simulation p numSims draws) 50).getD y 0 ∧
      (percentile_series (run_simulation p numSims draws) 50).getD y 0 ≤
        (percentile_series (run_simulation p numSims draws) 75).getD y 0 ∧
      (percentile_series (run_simulation p numSims draws) 75).getD y 0 ≤
        (percentile_series (run_simulation p numSims draws) 90).getD y 0) := by
  have hhead := head_length_run_simulation p numSims draws hn
  have hlen : ∀ q : ℚ,
      (percentile_series (run_simulation p numSims draws) q).length = totalYears p + 1 := by
    intro q
    rw [length_percentile_series, hhead]
  have hcol : ∀ y : ℕ, 1 ≤ (column (run_simulation p numSims draws) y).length := by
    intro y
    rw [length_column, length_run_simulation]
    exact hn
  refine ⟨⟨hlen 10, hlen 25, hlen 50, hlen 75, hlen 90⟩, ?_⟩
  intro y hy
  have hy' : y < ((run_simulation p numSims draws).headD []).length := by
    rw [hhead]; exact hy
  refine ⟨?_, ?_, ?_, ?_⟩ <;>
  · rw [percentile_series_getD _ _ _ hy', percentile_series_getD _ _ _ hy']
    exact np_percentile_mono _ (hcol y) _ _ (by norm_num) (by norm_num) (by norm_num)

/-- Witness for C6: a two-run ensemble over the degenerate small
parameter set, at year column 0. -/
theorem C6_percentile_series_ordered_witness :
    (percentile_series (run_simulation tinyParams 2 fun s _ => (s : ℚ)) 10).getD 0 0 ≤
      (percentile_series (run_simulation tinyParams 2 fun s _ => (s : ℚ)) 25).getD 0 0 :=
  ((C6_percentile_series_ordered tinyParams 2 (fun s _ => (s : ℚ))
      (by norm_num)).2 0 (by omega)).1

end RetirementPlanner

namespace RetirementApp

open RetirementPlanner

/-! ## C7: the ordering validation blocks the engine -/

/-- C7: whenever the parsed inputs violate `retirement_age >
current_age`, the `chart_area` block renders exactly the inline message
"Retirement age must be greater than current age." and nothing else:
the `errorMsg` view carries no parameters and no ensemble, so the
simulation engine is never invoked and no chart, table or metrics
exist; analogously `life_expectancy ≤ retirement_age` yields only the
life-expectancy message. -/
theorem C7_validation_gate (inp : RawInputs) :
    (parse_int inp.retire_raw 50 ≤ parse_int inp.age_raw 30 →
      chartView inp = .errorMsg "Retirement age must be greater than current age.") ∧
    (parse_int inp.age_raw 30 < parse_int inp.retire_raw 50 →
      parse_int inp.until_raw 90 ≤ parse_int inp.retire_raw 50 →
      chartView inp = .errorMsg "Life expectancy must be greater than retirement age.") := by
  constructor
  · intro hv
    unfold chartView
    simp [hv]
  · intro hv hl
    unfold chartView
    simp [hv, not_le.mpr hv, hl]

/-- Witness for C7: current age text "30" and retirement text "25"
(the spec's own end-to-end scenario) yield exactly the first error. -/
theorem C7_validation_gate_witness :
    chartView { defaultInputs with retire_raw := "25" } =
      .errorMsg "Retirement age must be greater than current age." :=
  (C7_validation_gate { defaultInputs with retire_raw := "25" }).1 (by decide)

/-! ## C8: parse failure falls back to the named default -/

/-- C8: `parse_int` strips `$`, `,` and surrounding whitespace and
parses the remainder as an integer; on any input whose remainder fails
to parse the named default is returned, and with "abc" in the
current-savings field the computation still proceeds (the shell renders
the results view, no fatal error) using the default 2,400,000. -/
theorem C8_parse_int_fallback :
    (∀ (raw : String) (d : ℤ),
      pyInt (pyStrip (stripDollarComma raw.toList)) = none → parse_int raw d = d) ∧
    parse_int "abc" 2400000 = 2400000 ∧
    parse_int " $1,234 " 0 = 1234 ∧
    (buildParams { defaultInputs with savings_raw := "abc" }).current_savings = 2400000 ∧
    chartView { defaultInputs with savings_raw := "abc" } =
      .resultsView (buildParams { defaultInputs with savings_raw := "abc" }) 1000 := by
  have habc : parse_int "abc" 2400000 = 2400000 := by decide
  refine ⟨?_, habc, by decide, by simp [buildParams, habc], by rfl⟩
  intro raw d h
  unfold parse_int
  rw [h]

/-- Witness for C8: the text "xyz" fails to parse, so the default 7 is
returned. -/
theorem C8_parse_int_fallback_witness : parse_int "xyz" 7 = 7 :=
  C8_parse_int_fallback.1 "xyz" 7 (by decide)

/-! ## C9: the zero floor is never applied to the year-0 column -/

/-- The default form state with "-100" typed into the savings field;
`parse_int` accepts it, producing a negative `current_savings`. -/
def negSavingsInputs : RawInputs := { defaultInputs with savings_raw := "-100" }

/-- C9: `parse_int` accepts "-100"; `run_simulation` copies
`current_savings` into year 0 unmodified for every simulation and every
parameter set, so with the parsed negative savings the whole year-0
column equals -100 (negative) while every cell at years ≥ 1 is still
floored at 0 and hence nonnegative. -/
theorem C9_floor_skips_year_zero :
    parse_int "-100" 2400000 = -100 ∧
    (∀ (p : Params) (numSims : ℕ) (draws : ℕ → ℕ → ℚ) (s : ℕ), s < numSims →
      cell (run_simulation p numSims draws) s 0 = p.current_savings) ∧
    (∀ (draws : ℕ → ℕ → ℚ) (s : ℕ), s < 1000 →
      cell (run_simulation (buildParams negSavingsInputs) 1000 draws) s 0 = -100 ∧
      cell (run_simulation (buildParams negSavingsInputs) 1000 draws) s 0 < 0) ∧
    (∀ (draws : ℕ → ℕ → ℚ) (s y : ℕ), 1 ≤ y →
      0 ≤ cell (run_simulation (buildParams negSavingsInputs) 1000 draws) s y) := by
  have hzero : ∀ (p : Params) (numSims : ℕ) (draws : ℕ → ℕ → ℚ) (s : ℕ), s < numSims →
      cell (run_simulation p numSims draws) s 0 = p.current_savings := by
    intro p numSims draws s hs
    rw [cell_run_simulation p numSims draws s 0 hs (by omega)]
    rfl
  have hsav : (buildParams negSavingsInputs).current_savings = -100 := by
    have h100 : parse_int "-100" 2400000 = -100 := by decide
    simp [buildParams, negSavingsInputs, h100]
  refine ⟨by decide, hzero, ?_, ?_⟩
  · intro draws s hs
    rw [hzero _ 1000 draws s hs, hsav]
    norm_num
  · intro draws s y hy
    exact cell_nonneg_of_one_le _ 1000 draws s y hy

/-- Witness for C9 at concrete inputs. -/
theorem C9_floor_skips_year_zero_witness :
    parse_int "-100" 2400000 = -100 ∧
    cell (run_simulation (buildParams negSavingsInputs) 1000 fun _ _ => 0) 0 0 = -100 ∧
    0 ≤ cell (run_simulation (buildParams negSavingsInputs) 1000 fun _ _ => 0) 0 1 := by
  have h := C9_floor_skips_year_zero
  exact ⟨h.1, (h.2.2.1 (fun _ _ => 0) 0 (by norm_num)).1,
         h.2.2.2 (fun _ _ => 0) 0 1 (by norm_num)⟩

end RetirementApp
